import Mathlib

/-!
Verification of the authenticated API client of the iti-provider-frontend
repository against its specification.

The embedding below is translated from:
- src/services/api.ts   (ApiService: interceptors, token storage, error wrapping)
- src/services/auth.ts  (AuthService: verifyOTP, logout)
- src/services/google-auth.ts (GoogleAuthService: signIn / signUp token storage)

The JavaScript runtime is single-threaded and cooperative: the synchronous
section of an interceptor callback runs atomically between await points.
The 401-recovery logic of the response interceptor is therefore modelled as a
state machine whose atomic steps are (1) the error handler of the response
interceptor running for one failed response and (2) the in-flight refresh
request settling.  The check of the isRefreshing flag and its update happen
in the same synchronous section in the source (api.ts lines 76-93), so one
atomic step per handler run is faithful.
-/

namespace ItiProvider

/-- The secure store (expo-secure-store) modelled as an association list of
key/value entries.  getItemAsync / setItemAsync / deleteItemAsync become
storeGet / storeSet / storeDelete. -/
abbrev Store := List (String × String)

/-- Default storage key for the access token (api.ts line 12). -/
def AUTH_TOKEN_KEY : String := "auth_token"

/-- Default storage key for the refresh token (api.ts line 13). -/
def AUTH_REFRESH_TOKEN_KEY : String := "refresh_token"

/-- SecureStore.getItemAsync: the stored value for a key, if any. -/
def storeGet : Store → String → Option String
  | [], _ => none
  | (k1, v) :: rest, k => if k1 = k then some v else storeGet rest k

/-- SecureStore.deleteItemAsync: remove every entry for the key. -/
def storeDelete : Store → String → Store
  | [], _ => []
  | (k1, v) :: rest, k =>
      if k1 = k then storeDelete rest k else (k1, v) :: storeDelete rest k

/-- SecureStore.setItemAsync: overwrite the entry for the key. -/
def storeSet (s : Store) (k v : String) : Store :=
  (k, v) :: storeDelete s k

/-- ApiService.clearTokens (api.ts lines 145-148): delete both entries. -/
def clearTokens (s : Store) : Store :=
  storeDelete (storeDelete s AUTH_TOKEN_KEY) AUTH_REFRESH_TOKEN_KEY

/-- ApiService.setTokens (api.ts lines 161-164): store both tokens. -/
def setTokens (accessToken refreshToken : String) (s : Store) : Store :=
  storeSet (storeSet s AUTH_TOKEN_KEY accessToken) AUTH_REFRESH_TOKEN_KEY refreshToken

/-- ApiService.isAuthenticated (api.ts lines 153-156): double negation of the
stored access token.  In JavaScript both null and the empty string are falsy. -/
def isAuthenticatedB (s : Store) : Bool :=
  match storeGet s AUTH_TOKEN_KEY with
  | some t => t != ""
  | none => false

/-- An outbound request configuration (AxiosRequestConfig together with the
custom retry marker used by the response interceptor, api.ts line 73).
The authorization header is the only header the client logic touches. -/
structure Req where
  method : String
  url : String
  auth : Option String
  retry : Bool
deriving DecidableEq, Repr

/-- The bearer header value built at api.ts lines 61, 82 and 115. -/
def bearer (t : String) : String := "Bearer " ++ t

/-- Overwrite the authorization header of a request with a bearer token. -/
def withBearer (t : String) (r : Req) : Req := { r with auth := some (bearer t) }

/-- The request interceptor (api.ts lines 56-67): attach the stored access
token when it is truthy.  In JavaScript the empty string is falsy, so an
empty stored token is not attached. -/
def attachAuth (token : Option String) (r : Req) : Req :=
  match token with
  | some t => if t = "" then r else withBearer t r
  | none => r

/-- Dispatch preparation: read the access token from the store and attach it
(api.ts line 58). -/
def dispatchReq (s : Store) (r : Req) : Req :=
  attachAuth (storeGet s AUTH_TOKEN_KEY) r

/-- A JSON response body, reduced to the fields the client reads: the
optional message field plus an opaque remainder that keeps distinct bodies
distinct. -/
structure RespBody where
  message : Option String
  raw : String
deriving DecidableEq, Repr

/-- The ApiError class (api.ts lines 18-28): message, HTTP status and the
raw response data. -/
structure ApiError where
  message : String
  status : Nat
  data : Option RespBody
deriving DecidableEq, Repr

/-- An axios rejection value as seen by the response interceptor: the request
configuration, the response (status and body) when the server answered, and
the error message.  A network or timeout failure has no response. -/
structure AxiosErr where
  cfg : Req
  response : Option (Nat × Option RespBody)
  message : String
deriving DecidableEq, Repr

/-- The status of the response attached to an error, if any. -/
def respStatus (e : AxiosErr) : Option Nat := e.response.map Prod.fst

/-- A JavaScript || chain over possibly-absent strings: the first truthy
(present and non-empty) entry, else the default. -/
def firstTruthy : List (Option String) → String → String
  | [], d => d
  | none :: rest, d => firstTruthy rest d
  | some s :: rest, d => if s = "" then firstTruthy rest d else s

/-- The ApiError built at api.ts lines 132-137:
message = error.response?.data?.message || error.message || an error occurred,
status = error.response?.status || 500, data = error.response?.data. -/
def interceptorApiError (e : AxiosErr) : ApiError :=
  { message := firstTruthy [e.response.bind (fun p => p.2.bind RespBody.message),
      some e.message] "An error occurred"
    status := match e.response with
      | some (st, _) => if st = 0 then 500 else st
      | none => 500
    data := e.response.bind Prod.snd }

/-- A value thrown inside a public request helper: either an ApiError coming
out of the response interceptor, or any other thrown value (message plus
optional attached response). -/
inductive Thrown where
  | api (e : ApiError)
  | other (message : String) (response : Option (Nat × Option RespBody))
deriving DecidableEq, Repr

/-- ApiService.handleError (api.ts lines 229-239): pass an ApiError through
unchanged, wrap anything else into an ApiError with the same defaulting. -/
def handleError : Thrown → ApiError
  | Thrown.api e => e
  | Thrown.other m r =>
      { message := firstTruthy [some m] "An error occurred"
        status := match r with
          | some (st, _) => if st = 0 then 500 else st
          | none => 500
        data := r.bind Prod.snd }

/-- A rejection delivered to a caller: the raw Error thrown at api.ts line 99
or the ApiError built by the interceptor. -/
inductive RejectVal where
  | jsError (message : String)
  | apiError (e : ApiError)
deriving DecidableEq, Repr

/-- How the in-flight POST /auth/refresh-token settles: a 2xx response with
the new token pair, a non-2xx response, or a transport failure. -/
inductive RefreshOutcome where
  | success (accessToken refreshToken : String)
  | httpFail (status : Nat) (body : Option RespBody) (message : String)
  | netFail (message : String)
deriving DecidableEq, Repr

/-- State of the ApiService refresh coordination (api.ts lines 35-36)
together with observation logs:
- store: the secure store contents;
- isRefreshing and subscribers: the two private fields of ApiService
  (a subscriber is recorded by the original request it will replay);
- inflight: the request that initiated the refresh POST now in flight;
- refreshCalls: how many POST /auth/refresh-token requests were issued;
- replays: requests re-issued through the instance, in initiation order;
- rejections: promises settled with a rejection, in order;
- stuck: the in-flight refresh promise can never settle (see
  handleRefresh below). -/
structure MachineState where
  store : Store
  isRefreshing : Bool
  subscribers : List Req
  inflight : Option Req
  refreshCalls : Nat
  replays : List Req
  rejections : List (Req × RejectVal)
  stuck : Bool
deriving DecidableEq, Repr

/-- The error branch of the response interceptor (api.ts lines 72-138), one
atomic step for one failed response.
- 401 with the retry marker unset and a refresh already running: push a
  subscriber for this request (lines 77-89);
- 401 with the retry marker unset and no refresh running: mark the request,
  set the flag and read the refresh token; a missing or empty token throws,
  which clears the tokens and rejects the caller (lines 92-100, 123-129);
  otherwise the refresh POST is issued (lines 103-105);
- anything else: reject with the ApiError of lines 132-137. -/
def handleErr (s : MachineState) (e : AxiosErr) : MachineState :=
  if respStatus e = some 401 ∧ e.cfg.retry = false then
    if s.isRefreshing then
      { s with subscribers := s.subscribers ++ [e.cfg] }
    else
      let cfg1 : Req := { e.cfg with retry := true }
      match storeGet s.store AUTH_REFRESH_TOKEN_KEY with
      | some rt =>
          if rt = "" then
            { s with store := clearTokens s.store, isRefreshing := false,
                     inflight := none,
                     rejections := s.rejections ++
                       [(cfg1, RejectVal.jsError "No refresh token available")] }
          else
            { s with isRefreshing := true, inflight := some cfg1,
                     refreshCalls := s.refreshCalls + 1 }
      | none =>
          { s with store := clearTokens s.store, isRefreshing := false,
                   inflight := none,
                   rejections := s.rejections ++
                     [(cfg1, RejectVal.jsError "No refresh token available")] }
  else
    { s with rejections := s.rejections ++
        [(e.cfg, RejectVal.apiError (interceptorApiError e))] }

/-- The configuration of the refresh POST itself (api.ts lines 103-105): it
is issued through the same instance, so the request interceptor attaches the
current access token. -/
def refreshReq (s : Store) : Req :=
  dispatchReq s { method := "POST", url := "/auth/refresh-token",
                  auth := none, retry := false }

/-- Settlement of the in-flight refresh POST (api.ts lines 103-129), one
atomic step.
- success: store both new tokens (lines 110-111, the same two writes as
  setTokens), set the bearer header of the initiator (lines 114-116), flush
  every subscriber in queue order with the new token (lines 118-120), then
  re-issue the initiator (line 122); the subscriber replays follow as queued
  microtasks in the same order; the finally clears the flag (line 128);
- a non-2xx non-401 response or a transport failure: the interceptor turns
  it into an ApiError, the catch clears the stored tokens and rejects the
  initiating caller with it (lines 123-126); the subscribers field is NOT
  touched on this path, so queued continuations stay pending;
- a 401 response: the refresh request re-enters the response interceptor,
  and since isRefreshing is still set it joins its own subscriber queue
  (lines 77-89); the awaited promise at line 103 therefore never settles,
  the catch and finally never run, and the machine is stuck. -/
def handleRefresh (s : MachineState) (o : RefreshOutcome) : MachineState :=
  if s.stuck then s else
  match s.inflight with
  | none => s
  | some initiator =>
    match o with
    | RefreshOutcome.success newAt newRt =>
        { s with store := setTokens newAt newRt s.store,
                 isRefreshing := false, inflight := none, subscribers := [],
                 replays := s.replays ++
                   withBearer newAt initiator :: s.subscribers.map (withBearer newAt) }
    | RefreshOutcome.httpFail st body msg =>
        if st = 401 then
          let s1 := handleErr s { cfg := refreshReq s.store,
                                  response := some (st, body), message := msg }
          { s1 with stuck := true }
        else
          { s with store := clearTokens s.store, isRefreshing := false,
                   inflight := none,
                   rejections := s.rejections ++ [(initiator,
                     RejectVal.apiError (interceptorApiError
                       { cfg := refreshReq s.store,
                         response := some (st, body), message := msg }))] }
    | RefreshOutcome.netFail msg =>
        { s with store := clearTokens s.store, isRefreshing := false,
                 inflight := none,
                 rejections := s.rejections ++ [(initiator,
                   RejectVal.apiError (interceptorApiError
                     { cfg := refreshReq s.store,
                       response := none, message := msg }))] }

/-- An event of the cooperative scheduler: one failed response reaching the
interceptor, or the in-flight refresh settling. -/
inductive Ev where
  | err (e : AxiosErr)
  | refresh (o : RefreshOutcome)
deriving DecidableEq, Repr

def step (s : MachineState) : Ev → MachineState
  | Ev.err e => handleErr s e
  | Ev.refresh o => handleRefresh s o

def run (s : MachineState) (es : List Ev) : MachineState := es.foldl step s

def processErrs (s : MachineState) (es : List AxiosErr) : MachineState :=
  es.foldl handleErr s

/-- The response shape of /auth/verify-otp (auth.ts lines 16-20) and of
/auth/google-signin and /auth/google-signup (google-auth.ts lines 31-35).
access_token is optional here to cover a response lacking the field at
runtime; refresh_token is optional in the source type already. -/
structure AuthResponse where
  access_token : Option String
  token_type : String
  refresh_token : Option String
deriving DecidableEq, Repr

/-- The token-storage step shared by AuthService.verifyOTP (auth.ts lines
50-56) and GoogleAuthService.signIn and signUp (google-auth.ts lines 82-88
and 122-128): when response.access_token is truthy, store it together with
response.refresh_token || response.access_token; otherwise store nothing. -/
def storeAuthTokens (resp : AuthResponse) (s : Store) : Store :=
  match resp.access_token with
  | some at1 =>
      if at1 = "" then s
      else setTokens at1 (firstTruthy [resp.refresh_token] at1) s
  | none => s

/-- AuthService.logout (auth.ts lines 71-82): the POST /auth/logout outcome
is consumed by the catch clause, the finally clause clears the tokens, and
the returned promise resolves either way. -/
def logout (postOutcome : Except ApiError Unit) (s : Store) :
    Store × Except ApiError Unit :=
  match postOutcome with
  | Except.ok _ => (clearTokens s, Except.ok ())
  | Except.error _ => (clearTokens s, Except.ok ())

/-! Concrete scenario data used by witnesses and counterexamples. -/

/-- A store holding a pre-refresh token pair. -/
def storeC : Store := setTokens "old_at" "old_rt" []

/-- Quiescent client state: logged in, no refresh running. -/
def quiescentC : MachineState :=
  { store := storeC, isRefreshing := false, subscribers := [], inflight := none,
    refreshCalls := 0, replays := [], rejections := [], stuck := false }

def reqProfileC : Req :=
  { method := "GET", url := "/company-profile",
    auth := some (bearer "old_at"), retry := false }

def reqJobsC : Req :=
  { method := "GET", url := "/job-postings",
    auth := some (bearer "old_at"), retry := false }

/-- A 401 response error for a request. -/
def err401C (r : Req) : AxiosErr :=
  { cfg := r, response := some (401, none),
    message := "Request failed with status code 401" }

/-- The state after two concurrent 401 failures: refresh in flight for the
first request, second request queued. -/
def refreshingC : MachineState :=
  processErrs quiescentC [err401C reqProfileC, err401C reqJobsC]

/-- The event trace of claim C2 in which the refresh endpoint itself
answers 401 while a second caller is queued. -/
def c2Trace401C : List Ev :=
  [Ev.err (err401C reqProfileC), Ev.err (err401C reqJobsC),
   Ev.refresh (RefreshOutcome.httpFail 401 none "Request failed with status code 401")]

/-- The event trace of claim C2 in which the refresh call fails with a
transport error while a second caller is queued. -/
def c2TraceNetC : List Ev :=
  [Ev.err (err401C reqProfileC), Ev.err (err401C reqJobsC),
   Ev.refresh (RefreshOutcome.netFail "Network Error")]

/-! Helper lemmas about the interceptor steps. -/

theorem storeGet_set_self (s : Store) (k v : String) :
    storeGet (storeSet s k v) k = some v := by
  simp [storeSet, storeGet]

theorem storeGet_delete_self (s : Store) (k : String) :
    storeGet (storeDelete s k) k = none := by
  induction s with
  | nil => rfl
  | cons p rest ih =>
      obtain ⟨k1, v⟩ := p
      by_cases h : k1 = k
      · simp [storeDelete, h, ih]
      · simp [storeDelete, storeGet, h, ih]

theorem storeGet_delete_other (s : Store) (k k2 : String) (h : k ≠ k2) :
    storeGet (storeDelete s k) k2 = storeGet s k2 := by
  induction s with
  | nil => rfl
  | cons p rest ih =>
      obtain ⟨k1, v⟩ := p
      by_cases h1 : k1 = k
      · subst h1; simp [storeDelete, storeGet, h, ih]
      · by_cases h2 : k1 = k2
        · simp [storeDelete, storeGet, h1, h2, Ne.symm h]
        · simp [storeDelete, storeGet, h1, h2, ih]

theorem storeGet_set_other (s : Store) (k k2 v : String) (h : k ≠ k2) :
    storeGet (storeSet s k v) k2 = storeGet s k2 := by
  simp [storeSet, storeGet, h]
  exact storeGet_delete_other s k k2 h

theorem storeDelete_idem (s : Store) (k : String) :
    storeDelete (storeDelete s k) k = storeDelete s k := by
  induction s with
  | nil => rfl
  | cons p rest ih =>
      obtain ⟨k1, v⟩ := p
      by_cases h : k1 = k
      · simp [storeDelete, h, ih]
      · simp [storeDelete, h, ih]

theorem storeDelete_comm (s : Store) (a b : String) :
    storeDelete (storeDelete s a) b = storeDelete (storeDelete s b) a := by
  induction s with
  | nil => rfl
  | cons p rest ih =>
      obtain ⟨k1, v⟩ := p
      by_cases ha : k1 = a
      · by_cases hb : k1 = b
        · subst ha; subst hb; simp [storeDelete, ih]
        · subst ha; simp [storeDelete, hb, ih]
      · by_cases hb : k1 = b
        · subst hb; simp [storeDelete, ha, ih]
        · simp [storeDelete, ha, hb, ih]

theorem clearTokens_idem (s : Store) :
    clearTokens (clearTokens s) = clearTokens s := by
  unfold clearTokens
  rw [storeDelete_comm (storeDelete (storeDelete s AUTH_TOKEN_KEY) AUTH_REFRESH_TOKEN_KEY)
    AUTH_TOKEN_KEY AUTH_REFRESH_TOKEN_KEY]
  rw [storeDelete_idem, storeDelete_comm _ AUTH_REFRESH_TOKEN_KEY AUTH_TOKEN_KEY,
    storeDelete_idem]

theorem storeGet_clearTokens_token (s : Store) :
    storeGet (clearTokens s) AUTH_TOKEN_KEY = none := by
  unfold clearTokens
  rw [storeGet_delete_other _ _ _ (by decide)]
  exact storeGet_delete_self s AUTH_TOKEN_KEY

theorem storeGet_clearTokens_refresh (s : Store) :
    storeGet (clearTokens s) AUTH_REFRESH_TOKEN_KEY = none :=
  storeGet_delete_self _ AUTH_REFRESH_TOKEN_KEY

theorem isAuthenticatedB_clearTokens (s : Store) :
    isAuthenticatedB (clearTokens s) = false := by
  unfold isAuthenticatedB
  rw [storeGet_clearTokens_token]

theorem bearer_inj {a b : String} (h : bearer a = bearer b) : a = b := by
  have h2 := congrArg String.data h
  simp only [bearer, String.data_append] at h2
  exact String.ext (List.append_cancel_left h2)

theorem handleErr_join (s : MachineState) (e : AxiosErr)
    (hf : s.isRefreshing = true) (h401 : respStatus e = some 401)
    (hr : e.cfg.retry = false) :
    handleErr s e = { s with subscribers := s.subscribers ++ [e.cfg] } := by
  simp [handleErr, h401, hr, hf]

theorem handleErr_start (s : MachineState) (e : AxiosErr) (rt : String)
    (hf : s.isRefreshing = false) (h401 : respStatus e = some 401)
    (hr : e.cfg.retry = false)
    (hget : storeGet s.store AUTH_REFRESH_TOKEN_KEY = some rt) (hrt : rt ≠ "") :
    handleErr s e = { s with isRefreshing := true,
                             inflight := some { e.cfg with retry := true },
                             refreshCalls := s.refreshCalls + 1 } := by
  simp [handleErr, h401, hr, hf, hget, hrt]

theorem handleErr_reject (s : MachineState) (e : AxiosErr)
    (h : ¬(respStatus e = some 401 ∧ e.cfg.retry = false)) :
    handleErr s e = { s with rejections := s.rejections ++
      [(e.cfg, RejectVal.apiError (interceptorApiError e))] } := by
  simp [handleErr, h]

theorem processErrs_cons (s : MachineState) (e : AxiosErr) (es : List AxiosErr) :
    processErrs s (e :: es) = processErrs (handleErr s e) es := rfl

theorem processErrs_join (es : List AxiosErr) :
    ∀ s : MachineState, s.isRefreshing = true →
      (∀ e ∈ es, respStatus e = some 401 ∧ e.cfg.retry = false) →
      processErrs s es =
        { s with subscribers := s.subscribers ++ es.map AxiosErr.cfg } := by
  induction es with
  | nil => intro s _ _; simp [processErrs]
  | cons e rest ih =>
      intro s hf hall
      obtain ⟨h401, hr⟩ := hall e (List.mem_cons_self e rest)
      rw [processErrs_cons, handleErr_join s e hf h401 hr,
        ih _ (by simp [hf]) (fun x hx => hall x (List.mem_cons_of_mem e hx))]
      simp

theorem attachAuth_retry (t : Option String) (r : Req) :
    (attachAuth t r).retry = r.retry := by
  cases t with
  | none => rfl
  | some x => by_cases hx : x = "" <;> simp [attachAuth, withBearer, hx]

theorem refreshReq_retry (s : Store) : (refreshReq s).retry = false := by
  simp [refreshReq, dispatchReq, attachAuth_retry]

theorem handleRefresh_success (s : MachineState) (r0 : Req) (newAt newRt : String)
    (hs : s.stuck = false) (hin : s.inflight = some r0) :
    handleRefresh s (RefreshOutcome.success newAt newRt) =
      { s with store := setTokens newAt newRt s.store,
               isRefreshing := false, inflight := none, subscribers := [],
               replays := s.replays ++
                 withBearer newAt r0 :: s.subscribers.map (withBearer newAt) } := by
  simp [handleRefresh, hs, hin]

theorem handleRefresh_netFail (s : MachineState) (r0 : Req) (msg : String)
    (hs : s.stuck = false) (hin : s.inflight = some r0) :
    handleRefresh s (RefreshOutcome.netFail msg) =
      { s with store := clearTokens s.store, isRefreshing := false,
               inflight := none,
               rejections := s.rejections ++ [(r0,
                 RejectVal.apiError (interceptorApiError
                   { cfg := refreshReq s.store, response := none,
                     message := msg }))] } := by
  simp [handleRefresh, hs, hin]

theorem handleRefresh_httpFail (s : MachineState) (r0 : Req) (st : Nat)
    (body : Option RespBody) (msg : String)
    (hs : s.stuck = false) (hin : s.inflight = some r0) (h401 : st ≠ 401) :
    handleRefresh s (RefreshOutcome.httpFail st body msg) =
      { s with store := clearTokens s.store, isRefreshing := false,
               inflight := none,
               rejections := s.rejections ++ [(r0,
                 RejectVal.apiError (interceptorApiError
                   { cfg := refreshReq s.store, response := some (st, body),
                     message := msg }))] } := by
  simp [handleRefresh, hs, hin, h401]

theorem handleRefresh_stuck401 (s : MachineState) (r0 : Req)
    (body : Option RespBody) (msg : String)
    (hs : s.stuck = false) (hin : s.inflight = some r0)
    (hf : s.isRefreshing = true) :
    handleRefresh s (RefreshOutcome.httpFail 401 body msg) =
      { s with subscribers := s.subscribers ++ [refreshReq s.store],
               stuck := true } := by
  have hj := handleErr_join s
    { cfg := refreshReq s.store, response := some (401, body), message := msg }
    hf (by simp [respStatus]) (refreshReq_retry _)
  simp [handleRefresh, hs, hin, hj]

theorem handleRefresh_refreshCalls (s : MachineState) (o : RefreshOutcome)
    (hf : s.isRefreshing = true) :
    (handleRefresh s o).refreshCalls = s.refreshCalls := by
  cases hst : s.stuck with
  | true => simp [handleRefresh, hst]
  | false =>
    cases hin : s.inflight with
    | none => simp [handleRefresh, hst, hin]
    | some r0 =>
      cases o with
      | success a b => rw [handleRefresh_success s r0 a b hst hin]
      | netFail m => rw [handleRefresh_netFail s r0 m hst hin]
      | httpFail st body m =>
          by_cases h401 : st = 401
          · subst h401
            rw [handleRefresh_stuck401 s r0 body m hst hin hf]
          · rw [handleRefresh_httpFail s r0 st body m hst hin h401]

/-! Claim theorems. -/

/-- Claim C1: single refresh under contention.  For any wave of N greater
or equal 2 first-time 401 failures processed from a state with no refresh
in flight and a refresh token in storage, exactly one refresh POST is
issued and the other N minus 1 requests are queued as subscribers; any
first-time 401 arriving while the isRefreshing flag is set joins the queue
without issuing a refresh; an already-retried 401 never issues a refresh
either; and the settlement of a refresh never issues a new one, so at most
one refresh call is in flight at any time. -/
theorem single_refresh_under_contention :
    (∀ (s : MachineState) (es : List AxiosErr),
        s.isRefreshing = false →
        (∃ rt, storeGet s.store AUTH_REFRESH_TOKEN_KEY = some rt ∧ rt ≠ "") →
        2 ≤ es.length →
        (∀ e ∈ es, respStatus e = some 401 ∧ e.cfg.retry = false) →
        (processErrs s es).refreshCalls = s.refreshCalls + 1 ∧
        (processErrs s es).subscribers = s.subscribers ++ es.tail.map AxiosErr.cfg) ∧
    (∀ (s : MachineState) (e : AxiosErr),
        s.isRefreshing = true → respStatus e = some 401 → e.cfg.retry = false →
        (handleErr s e).refreshCalls = s.refreshCalls ∧
        (handleErr s e).subscribers = s.subscribers ++ [e.cfg]) ∧
    (∀ (s : MachineState) (e : AxiosErr),
        e.cfg.retry = true →
        (handleErr s e).refreshCalls = s.refreshCalls) ∧
    (∀ (s : MachineState) (o : RefreshOutcome),
        s.isRefreshing = true →
        (handleRefresh s o).refreshCalls = s.refreshCalls) := by
  refine ⟨?_, ?_, ?_, ?_⟩
  · intro s es hf hex hlen hall
    obtain ⟨rt, hget, hrt⟩ := hex
    cases es with
    | nil => simp at hlen
    | cons e rest =>
        obtain ⟨h401, hr⟩ := hall e (List.mem_cons_self e rest)
        rw [processErrs_cons, handleErr_start s e rt hf h401 hr hget hrt,
          processErrs_join rest _ (by simp)
            (fun x hx => hall x (List.mem_cons_of_mem e hx))]
        simp
  · intro s e hf h401 hr
    rw [handleErr_join s e hf h401 hr]
    simp
  · intro s e hr
    rw [handleErr_reject s e (by simp [hr])]
  · intro s o hf
    exact handleRefresh_refreshCalls s o hf

/-- Witness for C1 at a concrete wave of two 401 failures. -/
theorem single_refresh_under_contention_witness :
    (processErrs quiescentC [err401C reqProfileC, err401C reqJobsC]).refreshCalls =
        quiescentC.refreshCalls + 1 ∧
    (processErrs quiescentC [err401C reqProfileC, err401C reqJobsC]).subscribers =
        quiescentC.subscribers ++
          ([err401C reqProfileC, err401C reqJobsC].tail.map AxiosErr.cfg) :=
  single_refresh_under_contention.1 quiescentC [err401C reqProfileC, err401C reqJobsC]
    (by decide) ⟨"old_rt", by decide, by decide⟩ (by decide) (by decide)

/-- Claim C2: logout on refresh failure.  The code diverges from the claim.
First trace: the refresh endpoint answers 401; the refresh request re-enters
the interceptor, joins its own subscriber queue and never settles, so no
caller is rejected, both tokens stay in storage and isAuthenticated stays
true.  Second trace: the refresh call fails with a network error; the tokens
are cleared and the initiating caller is rejected, but the queued
continuation is never rejected and stays in the subscriber queue. -/
theorem logout_on_refresh_failure_divergence :
    ((run quiescentC c2Trace401C).rejections = [] ∧
     isAuthenticatedB (run quiescentC c2Trace401C).store = true ∧
     storeGet (run quiescentC c2Trace401C).store AUTH_TOKEN_KEY = some "old_at" ∧
     (run quiescentC c2Trace401C).stuck = true) ∧
    ((run quiescentC c2TraceNetC).subscribers = [reqJobsC] ∧
     (run quiescentC c2TraceNetC).rejections.length = 1 ∧
     isAuthenticatedB (run quiescentC c2TraceNetC).store = false) := by
  decide

/-- Claim C3: replay after refresh.  On a successful refresh the new pair is
stored, the initiator and every queued request are each re-issued exactly
once, every replay carries the new bearer header, and no replay carries the
header of any other token. -/
theorem replay_after_refresh :
    ∀ (s : MachineState) (r0 : Req) (newAt newRt : String),
      s.stuck = false → s.inflight = some r0 →
      storeGet (handleRefresh s (RefreshOutcome.success newAt newRt)).store
          AUTH_TOKEN_KEY = some newAt ∧
      storeGet (handleRefresh s (RefreshOutcome.success newAt newRt)).store
          AUTH_REFRESH_TOKEN_KEY = some newRt ∧
      (handleRefresh s (RefreshOutcome.success newAt newRt)).replays =
        s.replays ++ (r0 :: s.subscribers).map (withBearer newAt) ∧
      (∀ r ∈ (r0 :: s.subscribers).map (withBearer newAt),
        r.auth = some (bearer newAt)) ∧
      (∀ oldAt, oldAt ≠ newAt →
        ∀ r ∈ (r0 :: s.subscribers).map (withBearer newAt),
          r.auth ≠ some (bearer oldAt)) := by
  intro s r0 newAt newRt hs hin
  rw [handleRefresh_success s r0 newAt newRt hs hin]
  refine ⟨?_, ?_, by simp, ?_, ?_⟩
  · simp only [setTokens]
    rw [storeGet_set_other _ _ _ _ (by decide), storeGet_set_self]
  · simp only [setTokens]
    rw [storeGet_set_self]
  · intro r hr
    obtain ⟨x, _, hx⟩ := List.mem_map.mp hr
    rw [← hx]
    rfl
  · intro oldAt hne r hr
    obtain ⟨x, _, hx⟩ := List.mem_map.mp hr
    rw [← hx]
    simp only [withBearer, ne_eq, Option.some.injEq]
    intro hb
    exact hne (bearer_inj hb).symm

/-- Witness for C3: the concrete two-request wave refreshed with a new pair. -/
theorem replay_after_refresh_witness :
    storeGet (handleRefresh refreshingC (RefreshOutcome.success "new_at" "new_rt")).store
        AUTH_TOKEN_KEY = some "new_at" ∧
    storeGet (handleRefresh refreshingC (RefreshOutcome.success "new_at" "new_rt")).store
        AUTH_REFRESH_TOKEN_KEY = some "new_rt" ∧
    (handleRefresh refreshingC (RefreshOutcome.success "new_at" "new_rt")).replays =
      refreshingC.replays ++
        (({ reqProfileC with retry := true }) :: refreshingC.subscribers).map
          (withBearer "new_at") ∧
    (∀ r ∈ (({ reqProfileC with retry := true }) :: refreshingC.subscribers).map
        (withBearer "new_at"), r.auth = some (bearer "new_at")) ∧
    (∀ oldAt, oldAt ≠ "new_at" →
      ∀ r ∈ (({ reqProfileC with retry := true }) :: refreshingC.subscribers).map
          (withBearer "new_at"), r.auth ≠ some (bearer oldAt)) :=
  replay_after_refresh refreshingC { reqProfileC with retry := true }
    "new_at" "new_rt" (by decide) (by decide)

/-- The event trace of claim C4: two concurrent 401 failures, a successful
refresh, then a second 401 for the replay of the request that had been
queued.  That replay still has the retry marker unset. -/
def c4TraceC : List Ev :=
  [Ev.err (err401C reqProfileC), Ev.err (err401C reqJobsC),
   Ev.refresh (RefreshOutcome.success "new_at" "new_rt"),
   Ev.err { cfg := withBearer "new_at" reqJobsC, response := some (401, none),
            message := "Request failed with status code 401" }]

/-- Claim C4 counterexample: the queued request is replayed without the
retry marker, so when its replay fails 401 again the recovery path is
entered a second time: a second refresh POST is issued (refreshCalls ends
at 2) and no ApiError is surfaced for it (rejections stays empty), against
the claim that the second 401 propagates directly as an ApiError. -/
theorem single_retry_guard_counterexample :
    (run quiescentC c4TraceC).refreshCalls = 2 ∧
    (run quiescentC c4TraceC).rejections = [] ∧
    (withBearer "new_at" reqJobsC).retry = false := by
  decide

/-- Claim C4 as amended: the single-retry guard protects only the request
that initiated the refresh.  A 401 for a request already carrying the retry
marker bypasses recovery: it is rejected with an ApiError carrying status
401, no refresh is issued and nothing is queued.  The initiator is stored
with the marker set, and its replay keeps it; a request that joined the
queue is stored and replayed with the marker still unset, so a second 401
on its replay re-enters the recovery path. -/
theorem single_retry_guard_amended :
    (∀ (s : MachineState) (e : AxiosErr) (b : Option RespBody),
        e.cfg.retry = true → e.response = some (401, b) →
        handleErr s e = { s with rejections := s.rejections ++
          [(e.cfg, RejectVal.apiError (interceptorApiError e))] } ∧
        (interceptorApiError e).status = 401) ∧
    (∀ (s : MachineState) (e : AxiosErr) (rt : String),
        s.isRefreshing = false → respStatus e = some 401 → e.cfg.retry = false →
        storeGet s.store AUTH_REFRESH_TOKEN_KEY = some rt → rt ≠ "" →
        (handleErr s e).inflight = some { e.cfg with retry := true }) ∧
    (∀ (t : String) (r : Req), (withBearer t r).retry = r.retry) ∧
    (∀ (s : MachineState) (e : AxiosErr),
        s.isRefreshing = true → respStatus e = some 401 → e.cfg.retry = false →
        (handleErr s e).subscribers = s.subscribers ++ [e.cfg]) := by
  refine ⟨?_, ?_, ?_, ?_⟩
  · intro s e b hr hresp
    constructor
    · exact handleErr_reject s e (by simp [hr])
    · simp [interceptorApiError, hresp]
  · intro s e rt hf h401 hr hget hrt
    rw [handleErr_start s e rt hf h401 hr hget hrt]
  · intro t r
    rfl
  · intro s e hf h401 hr
    rw [handleErr_join s e hf h401 hr]

/-- Witness for the amended C4 at concrete inputs. -/
theorem single_retry_guard_amended_witness :
    (handleErr quiescentC
        { cfg := { reqProfileC with retry := true }, response := some (401, none),
          message := "Request failed with status code 401" } =
      { quiescentC with rejections := quiescentC.rejections ++
          [({ reqProfileC with retry := true }, RejectVal.apiError (interceptorApiError
            { cfg := { reqProfileC with retry := true }, response := some (401, none),
              message := "Request failed with status code 401" }))] } ∧
     (interceptorApiError
        { cfg := { reqProfileC with retry := true }, response := some (401, none),
          message := "Request failed with status code 401" }).status = 401) ∧
    (handleErr quiescentC (err401C reqProfileC)).inflight =
      some { (err401C reqProfileC).cfg with retry := true } ∧
    (withBearer "new_at" reqJobsC).retry = reqJobsC.retry ∧
    (handleErr refreshingC (err401C reqJobsC)).subscribers =
      refreshingC.subscribers ++ [(err401C reqJobsC).cfg] :=
  ⟨(single_retry_guard_amended.1 quiescentC _ none (by decide) (by decide)),
   (single_retry_guard_amended.2.1 quiescentC (err401C reqProfileC) "old_rt"
      (by decide) (by decide) (by decide) (by decide) (by decide)),
   (single_retry_guard_amended.2.2.1 "new_at" reqJobsC),
   (single_retry_guard_amended.2.2.2 refreshingC (err401C reqJobsC)
      (by decide) (by decide) (by decide))⟩

/-- A transport failure (no response attached) for the profile request. -/
def netErrC : AxiosErr :=
  { cfg := reqProfileC, response := none, message := "Network Error" }

/-- A genuine HTTP 500 response with an empty body and the same message. -/
def http500C : AxiosErr :=
  { cfg := reqProfileC, response := some (500, none), message := "Network Error" }

/-- Claim C5 counterexample: the claim says a network or transport failure
produces an ApiError with no HTTP status, but the interceptor defaults the
missing status to 500, producing an ApiError identical to the one built for
a genuine server 500 with an empty body, so the resulting error does carry
an HTTP status. -/
theorem error_taxonomy_counterexample :
    (interceptorApiError netErrC).status = 500 ∧
    interceptorApiError netErrC = interceptorApiError http500C := by
  decide

/-- Claim C5 as amended: every failed call surfaces as an ApiError carrying
a message, a status and the response data; for an HTTP error response the
server status and body are preserved both by the interceptor and by
handleError; a network or transport failure yields status defaulted to 500
and no body. -/
theorem error_taxonomy_amended :
    (∀ (e : AxiosErr) (st : Nat) (b : Option RespBody),
        e.response = some (st, b) → st ≠ 0 →
        (interceptorApiError e).status = st ∧ (interceptorApiError e).data = b) ∧
    (∀ e : AxiosErr, e.response = none →
        (interceptorApiError e).status = 500 ∧
        (interceptorApiError e).data = none ∧
        (interceptorApiError e).message = firstTruthy [some e.message] "An error occurred") ∧
    (∀ a : ApiError, handleError (Thrown.api a) = a) ∧
    (∀ (m : String) (st : Nat) (b : Option RespBody), st ≠ 0 →
        (handleError (Thrown.other m (some (st, b)))).status = st ∧
        (handleError (Thrown.other m (some (st, b)))).data = b) ∧
    (∀ m : String, (handleError (Thrown.other m none)).status = 500 ∧
        (handleError (Thrown.other m none)).data = none) := by
  refine ⟨?_, ?_, ?_, ?_, ?_⟩
  · intro e st b hresp hst
    simp [interceptorApiError, hresp, hst]
  · intro e hresp
    refine ⟨?_, ?_, ?_⟩ <;> simp [interceptorApiError, hresp, firstTruthy]
  · intro a
    rfl
  · intro m st b hst
    simp [handleError, hst]
  · intro m
    simp [handleError]

/-- Witness for the amended C5 at concrete inputs. -/
theorem error_taxonomy_amended_witness :
    ((interceptorApiError http500C).status = 500 ∧
     (interceptorApiError http500C).data = none) ∧
    ((interceptorApiError netErrC).status = 500 ∧
     (interceptorApiError netErrC).data = none ∧
     (interceptorApiError netErrC).message =
       firstTruthy [some netErrC.message] "An error occurred") ∧
    ((handleError (Thrown.other "No refresh token available" (some (404, none)))).status = 404 ∧
     (handleError (Thrown.other "No refresh token available" (some (404, none)))).data = none) :=
  ⟨error_taxonomy_amended.1 http500C 500 none (by decide) (by decide),
   error_taxonomy_amended.2.1 netErrC (by decide),
   error_taxonomy_amended.2.2.2.1 "No refresh token available" 404 none (by decide)⟩

/-- A store whose access-token entry holds the empty string, reachable for
instance through setTokens with an empty access token. -/
def emptyTokenStoreC : Store := storeSet [] AUTH_TOKEN_KEY ""

/-- A request with no authorization header yet. -/
def plainReqC : Req :=
  { method := "GET", url := "/company-profile", auth := none, retry := false }

/-- Claim C6 counterexample: an access token IS present in storage (the
empty string), yet the request is dispatched without an authorization
header, because the request interceptor tests the token for JavaScript
truthiness and the empty string is falsy. -/
theorem unauth_dispatch_counterexample :
    storeGet emptyTokenStoreC AUTH_TOKEN_KEY = some "" ∧
    (dispatchReq emptyTokenStoreC plainReqC).auth = none := by
  decide

/-- Claim C6 as amended: a call made with no access token in storage is
dispatched unchanged, without an authorization header; a present non-empty
token is attached as a bearer header; a present empty-string token is falsy
and treated like absence, so the request is also dispatched unchanged. -/
theorem unauth_dispatch_amended :
    (∀ (s : Store) (r : Req), storeGet s AUTH_TOKEN_KEY = none →
        dispatchReq s r = r) ∧
    (∀ (s : Store) (r : Req) (t : String),
        storeGet s AUTH_TOKEN_KEY = some t → t ≠ "" →
        (dispatchReq s r).auth = some (bearer t)) ∧
    (∀ (s : Store) (r : Req), storeGet s AUTH_TOKEN_KEY = some "" →
        dispatchReq s r = r) := by
  refine ⟨?_, ?_, ?_⟩
  · intro s r hget
    simp [dispatchReq, hget, attachAuth]
  · intro s r t hget ht
    simp [dispatchReq, hget, attachAuth, ht, withBearer]
  · intro s r hget
    simp [dispatchReq, hget, attachAuth]

/-- Witness for the amended C6 at concrete inputs. -/
theorem unauth_dispatch_amended_witness :
    dispatchReq [] plainReqC = plainReqC ∧
    (dispatchReq storeC plainReqC).auth = some (bearer "old_at") ∧
    dispatchReq emptyTokenStoreC plainReqC = plainReqC :=
  ⟨unauth_dispatch_amended.1 [] plainReqC (by decide),
   unauth_dispatch_amended.2.1 storeC plainReqC "old_at" (by decide) (by decide),
   unauth_dispatch_amended.2.2 emptyTokenStoreC plainReqC (by decide)⟩

/-- Claim C7 counterexample: the claim asserts that when the in-flight
refresh resolves, success or failure, every continuation queued during
that refresh is resumed in enqueue order.  On a failure resolution the code
resumes nothing: after the concrete trace in which the refresh call fails
with a network error, the refresh has resolved (the flag is cleared and no
refresh is in flight any more), yet the queued request has neither been
replayed nor rejected and is still sitting in the subscriber queue. -/
theorem fifo_resumption_counterexample :
    (run quiescentC c2TraceNetC).isRefreshing = false ∧
    (run quiescentC c2TraceNetC).inflight = none ∧
    (run quiescentC c2TraceNetC).replays = [] ∧
    (run quiescentC c2TraceNetC).subscribers = [reqJobsC] := by
  decide

/-- Claim C7 as amended: a request arriving during a refresh is appended at
the tail of the subscriber queue, and a SUCCESSFUL refresh resolution
resumes the queued continuations by mapping over the queue in order, so the
replays are initiated in enqueue order (after the initiating request, which
the interceptor re-issues synchronously first) and the queue is emptied.
Completion order of the replayed network calls is outside the model,
matching the claim that only initiation order is guaranteed.  When the
refresh resolves with a failure (transport error or non-2xx non-401
response), queued continuations are not resumed at all: the replay log and
the subscriber queue are left untouched. -/
theorem fifo_resumption_amended :
    (∀ (s : MachineState) (e : AxiosErr),
        s.isRefreshing = true → respStatus e = some 401 → e.cfg.retry = false →
        (handleErr s e).subscribers = s.subscribers ++ [e.cfg]) ∧
    (∀ (s : MachineState) (r0 : Req) (newAt newRt : String),
        s.stuck = false → s.inflight = some r0 →
        (handleRefresh s (RefreshOutcome.success newAt newRt)).replays =
          s.replays ++ withBearer newAt r0 :: s.subscribers.map (withBearer newAt) ∧
        (handleRefresh s (RefreshOutcome.success newAt newRt)).subscribers = []) ∧
    (∀ (s : MachineState) (r0 : Req) (msg : String),
        s.stuck = false → s.inflight = some r0 →
        (handleRefresh s (RefreshOutcome.netFail msg)).replays = s.replays ∧
        (handleRefresh s (RefreshOutcome.netFail msg)).subscribers = s.subscribers) ∧
    (∀ (s : MachineState) (r0 : Req) (st : Nat) (body : Option RespBody) (msg : String),
        s.stuck = false → s.inflight = some r0 → st ≠ 401 →
        (handleRefresh s (RefreshOutcome.httpFail st body msg)).replays = s.replays ∧
        (handleRefresh s (RefreshOutcome.httpFail st body msg)).subscribers = s.subscribers) := by
  refine ⟨?_, ?_, ?_, ?_⟩
  · intro s e hf h401 hr
    rw [handleErr_join s e hf h401 hr]
  · intro s r0 newAt newRt hs hin
    rw [handleRefresh_success s r0 newAt newRt hs hin]
    exact ⟨rfl, rfl⟩
  · intro s r0 msg hs hin
    rw [handleRefresh_netFail s r0 msg hs hin]
    exact ⟨rfl, rfl⟩
  · intro s r0 st body msg hs hin h401
    rw [handleRefresh_httpFail s r0 st body msg hs hin h401]
    exact ⟨rfl, rfl⟩

/-- Witness for the amended C7 at concrete inputs. -/
theorem fifo_resumption_amended_witness :
    (handleErr refreshingC (err401C reqJobsC)).subscribers =
      refreshingC.subscribers ++ [(err401C reqJobsC).cfg] ∧
    ((handleRefresh refreshingC (RefreshOutcome.success "new_at" "new_rt")).replays =
        refreshingC.replays ++ withBearer "new_at" { reqProfileC with retry := true } ::
          refreshingC.subscribers.map (withBearer "new_at") ∧
     (handleRefresh refreshingC (RefreshOutcome.success "new_at" "new_rt")).subscribers = []) ∧
    ((handleRefresh refreshingC (RefreshOutcome.netFail "Network Error")).replays =
        refreshingC.replays ∧
     (handleRefresh refreshingC (RefreshOutcome.netFail "Network Error")).subscribers =
        refreshingC.subscribers) ∧
    ((handleRefresh refreshingC (RefreshOutcome.httpFail 500 none "Server Error")).replays =
        refreshingC.replays ∧
     (handleRefresh refreshingC (RefreshOutcome.httpFail 500 none "Server Error")).subscribers =
        refreshingC.subscribers) :=
  ⟨fifo_resumption_amended.1 refreshingC (err401C reqJobsC)
     (by decide) (by decide) (by decide),
   fifo_resumption_amended.2.1 refreshingC { reqProfileC with retry := true }
     "new_at" "new_rt" (by decide) (by decide),
   fifo_resumption_amended.2.2.1 refreshingC { reqProfileC with retry := true }
     "Network Error" (by decide) (by decide),
   fifo_resumption_amended.2.2.2 refreshingC { reqProfileC with retry := true }
     500 none "Server Error" (by decide) (by decide) (by decide)⟩

/-- Claim C8: credential-store round trip.  After setTokens with a
non-empty access token, isAuthenticated is true; after clearTokens it is
false; clearTokens is idempotent; and setTokens with an empty-string
access token leaves isAuthenticated false, since the double negation of
the empty string is false in JavaScript. -/
theorem credential_store_roundtrip :
    (∀ (s : Store) (a r : String), a ≠ "" →
        isAuthenticatedB (setTokens a r s) = true) ∧
    (∀ s : Store, isAuthenticatedB (clearTokens s) = false) ∧
    (∀ s : Store, clearTokens (clearTokens s) = clearTokens s) ∧
    (∀ (s : Store) (r : String), isAuthenticatedB (setTokens "" r s) = false) := by
  have hget : ∀ (s : Store) (a r : String),
      storeGet (setTokens a r s) AUTH_TOKEN_KEY = some a := by
    intro s a r
    unfold setTokens
    rw [storeGet_set_other _ _ _ _ (by decide), storeGet_set_self]
  refine ⟨?_, isAuthenticatedB_clearTokens, clearTokens_idem, ?_⟩
  · intro s a r ha
    simp [isAuthenticatedB, hget s a r, ha]
  · intro s r
    simp [isAuthenticatedB, hget s "" r]

/-- Witness for C8 at concrete inputs. -/
theorem credential_store_roundtrip_witness :
    isAuthenticatedB (setTokens "old_at" "old_rt" []) = true ∧
    isAuthenticatedB (clearTokens storeC) = false ∧
    clearTokens (clearTokens storeC) = clearTokens storeC ∧
    isAuthenticatedB (setTokens "" "old_rt" storeC) = false :=
  ⟨credential_store_roundtrip.1 [] "old_at" "old_rt" (by decide),
   credential_store_roundtrip.2.1 storeC,
   credential_store_roundtrip.2.2.1 storeC,
   credential_store_roundtrip.2.2.2 storeC "old_rt"⟩

/-- Claim C9: refresh-token fallback on login.  When the verification or
Google sign-in response carries a truthy access_token and no refresh_token,
the access token is stored under both keys; when access_token is absent or
empty, nothing is stored.  The same storage snippet appears in
AuthService.verifyOTP and in GoogleAuthService.signIn and signUp. -/
theorem refresh_token_fallback :
    (∀ (s : Store) (at1 ty : String), at1 ≠ "" →
        storeGet (storeAuthTokens ⟨some at1, ty, none⟩ s) AUTH_TOKEN_KEY = some at1 ∧
        storeGet (storeAuthTokens ⟨some at1, ty, none⟩ s) AUTH_REFRESH_TOKEN_KEY = some at1) ∧
    (∀ (s : Store) (ty : String) (rt : Option String),
        storeAuthTokens ⟨none, ty, rt⟩ s = s) ∧
    (∀ (s : Store) (ty : String) (rt : Option String),
        storeAuthTokens ⟨some "", ty, rt⟩ s = s) := by
  refine ⟨?_, ?_, ?_⟩
  · intro s at1 ty ha
    constructor
    · simp only [storeAuthTokens, if_neg ha, firstTruthy, setTokens]
      rw [storeGet_set_other _ _ _ _ (by decide), storeGet_set_self]
    · simp only [storeAuthTokens, if_neg ha, firstTruthy, setTokens]
      rw [storeGet_set_self]
  · intro s ty rt
    rfl
  · intro s ty rt
    simp [storeAuthTokens]

/-- Witness for C9 at concrete inputs. -/
theorem refresh_token_fallback_witness :
    (storeGet (storeAuthTokens ⟨some "new_at", "Bearer", none⟩ []) AUTH_TOKEN_KEY =
        some "new_at" ∧
     storeGet (storeAuthTokens ⟨some "new_at", "Bearer", none⟩ []) AUTH_REFRESH_TOKEN_KEY =
        some "new_at") ∧
    storeAuthTokens ⟨none, "Bearer", some "new_rt"⟩ storeC = storeC ∧
    storeAuthTokens ⟨some "", "Bearer", some "new_rt"⟩ storeC = storeC :=
  ⟨refresh_token_fallback.1 [] "new_at" "Bearer" (by decide),
   refresh_token_fallback.2.1 storeC "Bearer" (some "new_rt"),
   refresh_token_fallback.2.2 storeC "Bearer" (some "new_rt")⟩

/-- Claim C10: logout always clears credentials.  Whatever the outcome of
the POST /auth/logout call, logout deletes both stored tokens, resolves
rather than rejecting, and leaves isAuthenticated false. -/
theorem logout_always_clears :
    ∀ (po : Except ApiError Unit) (s : Store),
      storeGet (logout po s).1 AUTH_TOKEN_KEY = none ∧
      storeGet (logout po s).1 AUTH_REFRESH_TOKEN_KEY = none ∧
      (logout po s).2 = Except.ok () ∧
      isAuthenticatedB (logout po s).1 = false := by
  intro po s
  have h1 : (logout po s).1 = clearTokens s := by
    cases po with
    | ok u => rfl
    | error e => rfl
  have h2 : (logout po s).2 = Except.ok () := by
    cases po with
    | ok u => rfl
    | error e => rfl
  rw [h1, h2]
  exact ⟨storeGet_clearTokens_token s, storeGet_clearTokens_refresh s,
    rfl, isAuthenticatedB_clearTokens s⟩

end ItiProvider
